import Mathlib

/-!
Verification of the report-collection script (src/aa.py).

The script resolves a fixed ordered list of relative paths against a fixed
root directory and writes, for each, a section into a single output file:
the file's contents if the path exists and is readable, a bracketed
error marker if it exists but reading raises, or a not-found marker if it
does not exist.  It prints one console progress line per path.

The filesystem is modelled as a function from absolute paths to a
`FileState`: `absent` (os.path.exists is false), or `present r` where `r`
records the outcome of `open(...).read()` — the full decoded contents on
success, or the exception's description on failure.  Python's `read()`
either returns the whole text or raises, so a `present` path carries
exactly one of these outcomes.
-/

namespace StripeCollect

/-- Outcome of `open(full_path, "r", encoding="utf-8")` followed by
`infile.read()`: either the full decoded contents, or the description
`str(e)` of the raised exception (permission, decode, I/O). -/
inductive ReadResult where
  | ok (content : String)
  | err (msg : String)
deriving DecidableEq, Repr

/-- State of one absolute path in the filesystem as the script observes it:
`absent` when `os.path.exists(full_path)` is false, otherwise `present r`
with the outcome of attempting to read it. -/
inductive FileState where
  | absent
  | present (r : ReadResult)
deriving DecidableEq, Repr

/-- A filesystem state: what the script would observe at each absolute path. -/
abbrev FS := String → FileState

/-- `project_root = r"C:\Users\hanos\cb\backend"` (src/aa.py line 4). -/
def project_root : String := "C:\\Users\\hanos\\cb\\backend"

/-- `os.path.join(root, rel)`: the script runs with a Windows root, where the
separator is a backslash; none of the listed relative paths is absolute, so
the join is plain concatenation with a separator. -/
def joinPath (root rel : String) : String := root ++ "\\" ++ rel

/-- `output_file = os.path.join(project_root, "stripe_migration_report.txt")`
(src/aa.py line 5). -/
def output_file : String := joinPath project_root "stripe_migration_report.txt"

/-- `files_to_collect` (src/aa.py lines 8-20). -/
def files_to_collect : List String :=
  [".env",
   "package.json",
   "server.js",
   "controllers/auth.js",
   "controllers/cards.js",
   "controllers/payments.js",
   "controllers/subscriptions.js",
   "controllers/users.js",
   "lib/prismaClient.js",
   "middleware/requireAuth.js",
   "prisma/schema.prisma"]

/-- The configuration the spec names: a root directory and an ordered list of
relative paths.  The source fixes both as literals; the loop body is uniform
in them. -/
structure Config where
  projectRoot : String
  filesToCollect : List String

/-- The source's literal configuration. -/
def sourceConfig : Config := ⟨project_root, files_to_collect⟩

/-- The `FileState` the script observes for one listed relative path:
`fs` at `os.path.join(cfg.projectRoot, rel)` (src/aa.py line 26-27). -/
def fileStateAt (fs : FS) (cfg : Config) (rel : String) : FileState :=
  fs (joinPath cfg.projectRoot rel)

/-- The sequence of `outfile.write` calls the loop body performs for one
relative path, given the state of its joined path (src/aa.py lines 27-39):
 * exists, read succeeds: header `\n--- rel ---\n\n`, the contents, `\n`;
 * exists, read raises `e`: header, `[ERROR READING FILE]: {e}\n`, `\n`;
 * does not exist: header `\n--- rel ---\n`, then `[FILE NOT FOUND]\n\n`. -/
def itemWrites (st : FileState) (rel : String) : List String :=
  match st with
  | .present (.ok c) => ["\n--- " ++ rel ++ " ---\n\n", c, "\n"]
  | .present (.err e) =>
      ["\n--- " ++ rel ++ " ---\n\n", "[ERROR READING FILE]: " ++ e ++ "\n", "\n"]
  | .absent => ["\n--- " ++ rel ++ " ---\n", "[FILE NOT FOUND]\n\n"]

/-- The text one relative path contributes to the report: its writes, in
order. -/
def sectionTextFor (st : FileState) (rel : String) : String :=
  String.join (itemWrites st rel)

/-- Whether the loop body opens and reads the path: it does exactly when
`os.path.exists(full_path)` is true (src/aa.py lines 27-30); the not-found
branch never touches the file. -/
def readAttempted : FileState → Bool
  | .absent => false
  | .present _ => true

/-- The console progress line for one relative path (src/aa.py lines 36, 40):
the success notice is printed in the exists-branch regardless of the read
outcome; the warning in the not-exists branch. -/
def consoleLineFor (st : FileState) (rel : String) : String :=
  match st with
  | .absent => "⚠️ Skipped (not found): " ++ rel
  | .present _ => "✅ Added: " ++ rel

/-- One section of the report: the relative path it is for and the text
written for it. -/
structure ReportSection where
  relPath : String
  text : String
deriving DecidableEq, Repr

/-- The section produced for one listed relative path. -/
def sectionFor (fs : FS) (cfg : Config) (rel : String) : ReportSection :=
  ⟨rel, sectionTextFor (fileStateAt fs cfg rel) rel⟩

/-- The report's sections: one per entry of `filesToCollect`, in list order
(src/aa.py line 25, `for relative_path in files_to_collect`). -/
def reportSections (fs : FS) (cfg : Config) : List ReportSection :=
  cfg.filesToCollect.map (sectionFor fs cfg)

/-- The title written before the loop (src/aa.py line 24). -/
def reportTitle : String := "=== Stripe Migration Report ===\n\n"

/-- The full text of the output file: title, then every section's text in
list order.  No footer is written after the loop. -/
def reportText (fs : FS) (cfg : Config) : String :=
  reportTitle ++ String.join ((reportSections fs cfg).map ReportSection.text)

/-- The per-path console lines, in list order. -/
def consoleLines (fs : FS) (cfg : Config) : List String :=
  cfg.filesToCollect.map (fun rel => consoleLineFor (fileStateAt fs cfg rel) rel)

/-- Observable outcome of one run: the output file's final contents (`none`
if it never existed), whether the pass ran to completion, and the
exception propagated out of the script, if any. -/
structure RunOutcome where
  fileContents : Option String
  completed : Bool
  raised : Option String
deriving DecidableEq, Repr

/-- One run of the script (src/aa.py lines 23-40).  `openResult` is the
outcome of `open(output_file, "w", encoding="utf-8")`: on failure the
exception propagates uncaught — nothing is written, the output file keeps
its prior contents `prior`, and the run terminates before any section.  On
success mode `"w"` truncates the file and the whole report is written; the
per-item branches never raise (every read failure is caught at src/aa.py
line 33), so the pass always completes. -/
def runProgram (openResult : Except String Unit) (fs : FS) (cfg : Config)
    (prior : Option String) : RunOutcome :=
  match openResult with
  | .error e => ⟨prior, false, some e⟩
  | .ok _ => ⟨some (reportText fs cfg), true, none⟩

/-! ### Helper lemmas -/

/-- Two strings with different first characters differ. -/
theorem ne_of_head_ne {s t : String} (h : s.data.head? ≠ t.data.head?) : s ≠ t :=
  fun he => h (by rw [he])

/-- Appending different strings to the same string gives different strings. -/
theorem append_left_ne {s t u : String} (h : t ≠ u) : s ++ t ≠ s ++ u := by
  intro he
  apply h
  apply String.ext
  have hd := congrArg String.data he
  rw [String.data_append, String.data_append] at hd
  exact List.append_cancel_left hd

/-- The section text always factors as the common header-line prefix
`\n--- rel ---\n` followed by a branch-determined remainder. -/
theorem sectionTextFor_eq_header_append (st : FileState) (rel : String) :
    sectionTextFor st rel =
      "\n--- " ++ rel ++ " ---\n" ++
        (match st with
         | .present (.ok c) => "\n" ++ c ++ "\n"
         | .present (.err e) => "\n" ++ ("[ERROR READING FILE]: " ++ e ++ "\n") ++ "\n"
         | .absent => "[FILE NOT FOUND]\n\n") := by
  have hd : (" ---\n\n" : String).data = (" ---\n" : String).data ++ ("\n" : String).data :=
    rfl
  cases st with
  | absent => simp [sectionTextFor, itemWrites, String.join, String.append_assoc]
  | present r =>
    cases r with
    | ok c =>
      apply String.ext
      simp only [sectionTextFor, itemWrites, String.join, List.foldl, String.data_append, hd]
      simp [List.append_assoc]
    | err e =>
      apply String.ext
      simp only [sectionTextFor, itemWrites, String.join, List.foldl, String.data_append, hd]
      simp [List.append_assoc]

/-- The not-found body differs from any read-error remainder: the former
starts with `[`, the latter with the extra newline the found-branch header
carries. -/
theorem notFound_body_ne_error_body (e : String) :
    ("[FILE NOT FOUND]\n\n" : String) ≠
      "\n" ++ ("[ERROR READING FILE]: " ++ e ++ "\n") ++ "\n" := by
  apply ne_of_head_ne
  have h1 : ("[FILE NOT FOUND]\n\n" : String).data.head? = some '[' := rfl
  have h2 : ("\n" ++ ("[ERROR READING FILE]: " ++ e ++ "\n") ++ "\n").data.head? =
      some '\n' := by
    rw [String.data_append, String.data_append]
    rfl
  rw [h1, h2]
  decide

/-- The success console line and the warning console line are never the same
string: their first characters differ. -/
theorem added_ne_skipped (rel : String) :
    "✅ Added: " ++ rel ≠ "⚠️ Skipped (not found): " ++ rel := by
  apply ne_of_head_ne
  have h1 : ("✅ Added: " ++ rel).data.head? = some '✅' := by
    rw [String.data_append]; rfl
  have h2 : ("⚠️ Skipped (not found): " ++ rel).data.head? = some '⚠' := by
    rw [String.data_append]; rfl
  rw [h1, h2]
  decide

/-! ### Concrete configurations and filesystem states used as witnesses -/

/-- A root directory for the spec's end-to-end scenario. -/
def scenarioRoot : String := "C:\\tmp\\case"

/-- Filesystem for the end-to-end scenario: the root contains exactly
`a.txt` with contents `"hello"`; every other path is absent. -/
def scenarioFS : FS := fun p =>
  if p = joinPath scenarioRoot "a.txt" then .present (.ok "hello") else .absent

/-- Configuration for the end-to-end scenario: list `["a.txt", "missing.txt"]`. -/
def scenarioConfig : Config := ⟨scenarioRoot, ["a.txt", "missing.txt"]⟩

/-- Like `scenarioFS` but with an extra unlisted file: observationally equal
to `scenarioFS` on every listed path of `scenarioConfig`. -/
def noiseFS : FS := fun p =>
  if p = joinPath scenarioRoot "a.txt" then .present (.ok "hello")
  else if p = joinPath scenarioRoot "unlisted.txt" then .present (.ok "secret")
  else .absent

/-- A root for the read-error scenario. -/
def errRoot : String := "C:\\tmp\\errcase"

/-- Filesystem with one present-but-unreadable file `b.txt`. -/
def errFS : FS := fun p =>
  if p = joinPath errRoot "b.txt" then .present (.err "Permission denied")
  else .absent

/-- Configuration for the read-error scenario. -/
def errConfig : Config := ⟨errRoot, ["b.txt", "c.txt"]⟩

/-! ### The claims -/

/-- C1: for every configuration and filesystem state, the report has exactly
one section per entry of the relative-path list, and the sections appear in
the list's order, regardless of whether each file exists or is readable. -/
theorem report_sections_count_and_order (fs : FS) (cfg : Config) :
    (reportSections fs cfg).length = cfg.filesToCollect.length ∧
    (reportSections fs cfg).map ReportSection.relPath = cfg.filesToCollect := by
  constructor
  · simp [reportSections]
  · rw [reportSections, List.map_map]
    exact List.map_id'' (fun a => rfl) _

/-- C2: on the scenario whose root holds exactly `a.txt` = `"hello"` with
list `["a.txt", "missing.txt"]`, the output file is byte-for-byte the
expected report. -/
theorem scenario_report_exact :
    reportText scenarioFS scenarioConfig =
      "=== Stripe Migration Report ===\n\n\n--- a.txt ---\n\nhello\n\n--- missing.txt ---\n[FILE NOT FOUND]\n\n" := by
  rfl

/-- C3: a relative path whose joined path exists and reads successfully as
UTF-8 contributes a section that is exactly its header line, a blank line,
the decoded contents, and the closing newline separator. -/
theorem readable_section_exact (fs : FS) (cfg : Config) (rel c : String)
    (h : fileStateAt fs cfg rel = .present (.ok c)) :
    sectionFor fs cfg rel = ⟨rel, "\n--- " ++ rel ++ " ---\n\n" ++ c ++ "\n"⟩ := by
  unfold sectionFor
  rw [h]
  rfl

/-- Witness for C3 at the concrete scenario. -/
theorem readable_section_exact_witness :
    fileStateAt scenarioFS scenarioConfig "a.txt" = .present (.ok "hello") ∧
    sectionFor scenarioFS scenarioConfig "a.txt" =
      ⟨"a.txt", "\n--- a.txt ---\n\nhello\n"⟩ :=
  ⟨rfl, readable_section_exact scenarioFS scenarioConfig "a.txt" "hello" rfl⟩

/-- C4: a relative path whose joined path does not exist contributes a
section whose body is exactly `[FILE NOT FOUND]`, no read of the path is
attempted, and that section text differs from the one produced for a path
that exists but is unreadable, whatever the error description. -/
theorem not_found_section_no_read (fs : FS) (cfg : Config) (rel : String)
    (h : fileStateAt fs cfg rel = .absent) :
    readAttempted (fileStateAt fs cfg rel) = false ∧
    sectionFor fs cfg rel =
      ⟨rel, "\n--- " ++ rel ++ " ---\n" ++ "[FILE NOT FOUND]\n\n"⟩ ∧
    ∀ e : String,
      sectionTextFor .absent rel ≠ sectionTextFor (.present (.err e)) rel := by
  refine ⟨by rw [h]; rfl, by unfold sectionFor; rw [h]; rfl, fun e => ?_⟩
  rw [sectionTextFor_eq_header_append, sectionTextFor_eq_header_append]
  exact append_left_ne (notFound_body_ne_error_body e)

/-- Witness for C4 at the concrete scenario's missing path. -/
theorem not_found_section_no_read_witness :
    fileStateAt scenarioFS scenarioConfig "missing.txt" = .absent ∧
    (readAttempted (fileStateAt scenarioFS scenarioConfig "missing.txt") = false ∧
      sectionFor scenarioFS scenarioConfig "missing.txt" =
        ⟨"missing.txt", "\n--- missing.txt ---\n" ++ "[FILE NOT FOUND]\n\n"⟩ ∧
      ∀ e : String,
        sectionTextFor .absent "missing.txt" ≠
          sectionTextFor (.present (.err e)) "missing.txt") :=
  ⟨rfl, not_found_section_no_read scenarioFS scenarioConfig "missing.txt" rfl⟩

/-- C5: a relative path that exists but whose read raises with description
`e` contributes a section whose body starts with `[ERROR READING FILE]: `
followed by a non-empty description; the failure is caught and the pass
continues to every path before and after it in the list. -/
theorem read_error_section_and_continues (fs : FS) (cfg : Config) (rel e : String)
    (l1 l2 : List String) (h : fileStateAt fs cfg rel = .present (.err e))
    (he : e ≠ "") :
    (∃ desc : String, desc ≠ "" ∧
        sectionFor fs cfg rel =
          ⟨rel, "\n--- " ++ rel ++ " ---\n\n" ++
            ("[ERROR READING FILE]: " ++ desc ++ "\n") ++ "\n"⟩) ∧
    reportSections fs ⟨cfg.projectRoot, l1 ++ rel :: l2⟩ =
      reportSections fs ⟨cfg.projectRoot, l1⟩ ++
        sectionFor fs cfg rel :: reportSections fs ⟨cfg.projectRoot, l2⟩ := by
  constructor
  · exact ⟨e, he, by unfold sectionFor; rw [h]; rfl⟩
  · simp only [reportSections, List.map_append, List.map_cons]
    rfl

/-- Witness for C5 at the concrete read-error scenario. -/
theorem read_error_section_and_continues_witness :
    (fileStateAt errFS errConfig "b.txt" = .present (.err "Permission denied") ∧
      "Permission denied" ≠ ("" : String)) ∧
    ((∃ desc : String, desc ≠ "" ∧
        sectionFor errFS errConfig "b.txt" =
          ⟨"b.txt", "\n--- " ++ "b.txt" ++ " ---\n\n" ++
            ("[ERROR READING FILE]: " ++ desc ++ "\n") ++ "\n"⟩) ∧
      reportSections errFS ⟨errRoot, ["b.txt", "c.txt"]⟩ =
        reportSections errFS ⟨errRoot, []⟩ ++
          sectionFor errFS errConfig "b.txt" ::
            reportSections errFS ⟨errRoot, ["c.txt"]⟩) :=
  ⟨⟨rfl, by decide⟩,
    read_error_section_and_continues errFS errConfig "b.txt" "Permission denied"
      [] ["c.txt"] rfl (by decide)⟩

/-- C6: failure to open the output file is the single fatal condition — the
exception propagates, the run terminates before any section is written and
the output file keeps its prior contents; when the open succeeds the pass
completes for every filesystem state, so no per-item failure (missing file
or failed read) ever terminates the run. -/
theorem open_failure_fatal (fs : FS) (cfg : Config) (prior : Option String)
    (msg : String) :
    runProgram (.error msg) fs cfg prior = ⟨prior, false, some msg⟩ ∧
    runProgram (.ok ()) fs cfg prior = ⟨some (reportText fs cfg), true, none⟩ :=
  ⟨rfl, rfl⟩

/-- C7: the console line is the success notice exactly when the joined path
exists (even when the read then fails), the not-found warning exactly when
it does not exist, and a successful read is never distinguished from a
failed read on the console. -/
theorem console_line_existence_only (fs : FS) (cfg : Config) (rel : String) :
    (consoleLineFor (fileStateAt fs cfg rel) rel = "✅ Added: " ++ rel ↔
        fileStateAt fs cfg rel ≠ .absent) ∧
    (consoleLineFor (fileStateAt fs cfg rel) rel =
        "⚠️ Skipped (not found): " ++ rel ↔ fileStateAt fs cfg rel = .absent) ∧
    (∀ c e : String,
        consoleLineFor (.present (.ok c)) rel =
          consoleLineFor (.present (.err e)) rel) := by
  have hne := added_ne_skipped rel
  cases hst : fileStateAt fs cfg rel with
  | absent =>
    refine ⟨?_, ?_, fun c e => rfl⟩
    · simp [consoleLineFor]
      exact fun hc => hne hc.symm
    · simp [consoleLineFor]
  | present r =>
    refine ⟨?_, ?_, fun c e => rfl⟩
    · simp [consoleLineFor]
    · simp [consoleLineFor]
      exact hne

/-- C8: a second run over an unchanged filesystem reproduces the first
run's output file exactly, and the run's outcome never depends on the
output file's prior contents — mode `"w"` truncates rather than appends. -/
theorem rerun_overwrites_and_prior_independent (fs : FS) (cfg : Config)
    (prior p1 p2 : Option String) :
    runProgram (.ok ()) fs cfg
        ((runProgram (.ok ()) fs cfg prior).fileContents) =
      runProgram (.ok ()) fs cfg prior ∧
    runProgram (.ok ()) fs cfg p1 = runProgram (.ok ()) fs cfg p2 :=
  ⟨rfl, rfl⟩

/-- C9: when the read of a found file fails, the writes for its section are
exactly the header, the error-marker line and the separator — the contents
are read in full before any of them would be written, so nothing of the
file's content precedes the marker in the section. -/
theorem read_error_writes_atomic (fs : FS) (cfg : Config) (rel e : String)
    (h : fileStateAt fs cfg rel = .present (.err e)) :
    itemWrites (fileStateAt fs cfg rel) rel =
      ["\n--- " ++ rel ++ " ---\n\n",
       "[ERROR READING FILE]: " ++ e ++ "\n", "\n"] ∧
    sectionTextFor (fileStateAt fs cfg rel) rel =
      "\n--- " ++ rel ++ " ---\n\n" ++
        ("[ERROR READING FILE]: " ++ e ++ "\n") ++ "\n" := by
  rw [h]
  exact ⟨rfl, rfl⟩

/-- Witness for C9 at the concrete read-error scenario. -/
theorem read_error_writes_atomic_witness :
    fileStateAt errFS errConfig "b.txt" = .present (.err "Permission denied") ∧
    (itemWrites (fileStateAt errFS errConfig "b.txt") "b.txt" =
      ["\n--- b.txt ---\n\n", "[ERROR READING FILE]: Permission denied\n", "\n"] ∧
    sectionTextFor (fileStateAt errFS errConfig "b.txt") "b.txt" =
      "\n--- b.txt ---\n\n" ++
        ("[ERROR READING FILE]: " ++ "Permission denied" ++ "\n") ++ "\n") :=
  ⟨rfl, read_error_writes_atomic errFS errConfig "b.txt" "Permission denied" rfl⟩

/-- C10: the report is a function only of each listed path's observed state
(existence and read outcome); two filesystem states agreeing on every listed
path yield byte-identical reports, and run outcomes that also ignore the
output file's prior contents — unlisted files have no influence. -/
theorem report_noninterference (fs1 fs2 : FS) (cfg : Config)
    (h : ∀ rel ∈ cfg.filesToCollect,
        fs1 (joinPath cfg.projectRoot rel) = fs2 (joinPath cfg.projectRoot rel))
    (p1 p2 : Option String) :
    reportText fs1 cfg = reportText fs2 cfg ∧
    runProgram (.ok ()) fs1 cfg p1 = runProgram (.ok ()) fs2 cfg p2 := by
  have hs : reportSections fs1 cfg = reportSections fs2 cfg := by
    apply List.map_congr_left
    intro rel hrel
    simp [sectionFor, fileStateAt, h rel hrel]
  exact ⟨by simp [reportText, hs], by simp [runProgram, reportText, hs]⟩

/-- Witness for C10: `noiseFS` adds an unlisted file to `scenarioFS`; the
reports and run outcomes coincide. -/
theorem report_noninterference_witness :
    (∀ rel ∈ scenarioConfig.filesToCollect,
        scenarioFS (joinPath scenarioConfig.projectRoot rel) =
          noiseFS (joinPath scenarioConfig.projectRoot rel)) ∧
    (reportText scenarioFS scenarioConfig = reportText noiseFS scenarioConfig ∧
      runProgram (.ok ()) scenarioFS scenarioConfig none =
        runProgram (.ok ()) noiseFS scenarioConfig (some "old")) :=
  ⟨by decide,
    report_noninterference scenarioFS noiseFS scenarioConfig (by decide)
      none (some "old")⟩

end StripeCollect
